import Mathlib

/-!
Shallow embedding of `src/bsv_wallet.py` (BSV_Wallet repository).

The script orchestrates a terminal wallet: balance/price queries and
transaction broadcast against WhatsOnChain and TAAL, plus two send
operations (`build_and_send`, `send_op_return`) that delegate coin
selection and signing to the external `bsvlib` library.

Conventions of the embedding:
* network responses are passed in as explicit parameters (the data the
  HTTP layer would have produced), so every function is pure;
* Python strings are `String` (or `List Char` where character-level
  operations such as `str.replace`/`str.strip` matter);
* satoshi quantities are `ℤ`, decimal BSV amounts are `ℚ`;
* the observable behaviour of an interactive operation is a trace of
  events (which external calls were made, in order) plus an outcome.
-/

set_option autoImplicit false

namespace BsvWallet

/-! ### Python string helpers

`pyStrip` models Python `str.strip()` (remove leading and trailing
whitespace); `pyLower` models `str.lower()` for the ASCII inputs the
wallet compares against (`"max"`, `"all"`, `"yes"`). -/

def pyStrip (s : List Char) : List Char :=
  ((s.dropWhile Char.isWhitespace).reverse.dropWhile Char.isWhitespace).reverse

def pyLower (s : String) : String :=
  String.mk (s.data.map Char.toLower)

/-! ### NetworkProvider.get_price (src/bsv_wallet.py lines 73-78)

`get_json` either fails (`none`) or yields a JSON dict; a failed or
falsy response makes `get_price` return the string `"0.00"`, and a dict
without a `rate` field falls back to `"0.00"` as well.  The parameter
is `none` when `get_json` returned `None` (or the dict was falsy), and
`some rate?` for a dict whose optional `rate` field is `rate?`. -/

def get_price (data : Option (Option String)) : String :=
  match data with
  | none => "0.00"
  | some rate? => rate?.getD "0.00"

/-! ### NetworkProvider.broadcast (src/bsv_wallet.py lines 92-116)

The code iterates the two TAAL API keys in order; an attempt that
raises or returns a non-200 status falls through to the next key, and
the first 200 response is returned immediately after extraction:
a JSON dict yields `resp.get('txid', resp.get('result'))`, any other
JSON value yields `str(resp)`, and a non-JSON body yields `r.text`.
If every TAAL key fell through, WhatsOnChain is tried once: on success
its body is returned with all double quotes removed and surrounding
whitespace stripped; on failure the function returns `None`. -/

/-- Outcome of one TAAL POST, one per API key. -/
inductive TaalResponse where
  /-- the request raised, or the status code was not 200: fall through -/
  | noResponse
  /-- status 200 with a JSON dict body; the optional `txid` and `result` fields -/
  | jsonDict (txid : Option String) (result : Option String)
  /-- status 200 with a non-dict JSON body, returned as `str(resp)` -/
  | jsonOther (s : String)
  /-- status 200 with a body that is not JSON, returned as `r.text` -/
  | notJson (text : String)
  deriving DecidableEq

/-- Outcome of the single WhatsOnChain POST. -/
inductive WocResponse where
  /-- the request raised or `raise_for_status` fired -/
  | failure
  /-- success; `text` is the response body `r.text` -/
  | ok (text : List Char)
  deriving DecidableEq

/-- The network responses one `broadcast` call would observe: one TAAL
response per configured API key (in `TAAL_KEYS` order) and the
WhatsOnChain response. -/
structure BroadcastEnv where
  taal : List TaalResponse
  woc : WocResponse

/-- `resp.get('txid', resp.get('result'))`: the `txid` field if the key
is present, otherwise the `result` field (or `None`). -/
def taalExtractDict (txid result : Option String) : Option String :=
  match txid with
  | some t => some t
  | none => result

/-- What one TAAL attempt contributes: `none` means fall through to the
next key, `some v` means `broadcast` returns `v` right here. -/
def taalExtract : TaalResponse → Option (Option String)
  | .noResponse => none
  | .jsonDict txid result => some (taalExtractDict txid result)
  | .jsonOther s => some (some s)
  | .notJson text => some (some text)

/-- The TAAL key loop: first attempt that produces a 200 response ends
the loop with its extracted value. -/
def taalLoop : List TaalResponse → Option (Option String)
  | [] => none
  | r :: rest =>
    match taalExtract r with
    | some v => some v
    | none => taalLoop rest

/-- `r.text.replace('"', '').strip()` on the WhatsOnChain body. -/
def wocNormalize (text : List Char) : List Char :=
  pyStrip (text.filter (fun c => c ≠ '"'))

/-- `NetworkProvider.broadcast`: TAAL keys in order, then WhatsOnChain,
then `None`. -/
def broadcast (env : BroadcastEnv) : Option String :=
  match taalLoop env.taal with
  | some v => v
  | none =>
    match env.woc with
    | .failure => none
    | .ok text => some (String.mk (wocNormalize text))

/-- How many TAAL keys were actually POSTed to before the loop ended. -/
def taalAttempts : List TaalResponse → ℕ
  | [] => 0
  | r :: rest =>
    match taalExtract r with
    | some _ => 1
    | none => 1 + taalAttempts rest

/-- Whether the WhatsOnChain fallback was contacted at all. -/
def wocAttempted (env : BroadcastEnv) : Bool :=
  (taalLoop env.taal).isNone

/-- `if txid and len(txid) > 20` — the acceptance test both send
operations apply to the value `broadcast` returned (an empty or absent
id, or one at most 20 characters long, is a failure). -/
def broadcastAccepted : Option String → Bool
  | none => false
  | some t => decide (20 < t.length)

/-! ### Amount parsing

`build_and_send` evaluates `Decimal(amount_str)` (then multiplies by
`100_000_000` and truncates with `int(...)`).  `parseDecimal` embeds
the plain numeric-literal subset of Python's `Decimal` constructor:
optional surrounding whitespace, an optional sign, then digits with at
most one decimal point and at least one digit.  A string outside this
subset makes `Decimal` raise, which the generic `except` at the end of
`build_and_send` turns into an aborted operation.  (Exponent notation
and the special values `Infinity`/`NaN` are outside the embedding; no
claim depends on them.) -/

def digitsToNat (l : List Char) : ℕ :=
  l.foldl (fun a c => 10 * a + (c.toNat - '0'.toNat)) 0

/-- Split at the first decimal point: `splitIntFrac l = (intPart, none)`
when `l` has no `'.'`, and `(intPart, some frac)` when `l` is
`intPart ++ '.' :: frac` with `intPart` dot-free. -/
def splitIntFrac : List Char → List Char × Option (List Char)
  | [] => ([], none)
  | c :: rest =>
    if c = '.' then ([], some rest)
    else
      let p := splitIntFrac rest
      (c :: p.1, p.2)

def parseDecCore (l : List Char) : Option ℚ :=
  match splitIntFrac l with
  | (intPart, none) =>
    if intPart ≠ [] ∧ intPart.all Char.isDigit then
      some (digitsToNat intPart)
    else
      none
  | (intPart, some frac) =>
    if (intPart ≠ [] ∨ frac ≠ []) ∧ intPart.all Char.isDigit ∧ frac.all Char.isDigit then
      some ((digitsToNat intPart : ℚ) + (digitsToNat frac : ℚ) / (10 : ℚ) ^ frac.length)
    else
      none

def parseSigned (l : List Char) : Option ℚ :=
  match l with
  | '+' :: rest => parseDecCore rest
  | '-' :: rest => (parseDecCore rest).map Neg.neg
  | _ => parseDecCore l

def parseDecimal (s : String) : Option ℚ :=
  parseSigned (pyStrip s.data)

/-- `int(q)` on a `Decimal`: truncation toward zero. -/
def truncInt (q : ℚ) : ℤ :=
  if 0 ≤ q then ⌊q⌋ else ⌈q⌉

/-- `amount_str.lower() in ['max', 'all']`. -/
def amountIsMax (s : String) : Bool :=
  (pyLower s == "max") || (pyLower s == "all")

/-! ### The send operations (src/bsv_wallet.py lines 169-211 and 213-261)

Both operations are embedded as trace-producing functions: the trace
records, in order, the external calls the operation makes (balance
refresh over the network, `bsvlib` transaction construction, the
broadcast POST), and the outcome mirrors the message printed. -/

/-- One observable step of a send operation. -/
inductive Event where
  /-- `self.get_balance_sats()` — a network refresh of the UTXO set -/
  | balanceQuery
  /-- `self.bsv_wallet.create_transaction(outputs=[(to, send_sats)], fee=...)` -/
  | buildTx (sendValue : ℤ) (fee : Option ℤ)
  /-- `self.bsv_wallet.create_transaction(outputs=[], pushdatas=[data])` -/
  | buildDataTx
  /-- `self.network.broadcast(raw_hex)` -/
  | broadcastCall
  deriving DecidableEq

/-- Events that go out on the network. -/
def isNetworkEvent : Event → Bool
  | .balanceQuery => true
  | .broadcastCall => true
  | _ => false

/-- Events that are a `bsvlib` transaction construction. -/
def isBuildEvent : Event → Bool
  | .buildTx _ _ => true
  | .buildDataTx => true
  | _ => false

/-- Whether the trace contains a `bsvlib` transaction construction. -/
def txBuilt (evs : List Event) : Bool :=
  evs.any isBuildEvent

/-- How a send operation ended, mirroring the printed message. -/
inductive SendOutcome where
  /-- the generic `except` fired (e.g. `Decimal` raised on a bad amount) -/
  | exceptionAbort
  /-- `"Balance too low for fee."` (MAX path, `send_sats <= 0`) -/
  | balanceTooLow
  /-- `"Insufficient funds."` / `"Insufficient funds for fee."` -/
  | insufficientFunds
  /-- `"Cancelled."` — the user did not type `yes` -/
  | cancelled
  /-- `"Broadcast failed."` — broadcast returned no plausible txid -/
  | broadcastFailed
  /-- `"Transaction Successful!"` with the returned txid -/
  | success (txid : String)
  deriving DecidableEq

/-- Inputs of one `build_and_send` call: the balance the network
refresh reports, the raw amount string, the confirmation line typed at
the prompt, and the value `NetworkProvider.broadcast` would return. -/
structure SendParams where
  total_sats : ℤ
  amount_str : String
  confirm : String
  broadcastResult : Option String

/-- The confirmation-and-broadcast epilogue shared by the textual
structure of both send operations: `input(...).lower()` compared
against `"yes"`, then the broadcast POST and the
`txid and len(txid) > 20` acceptance test. -/
def confirmStage (builtEvs : List Event) (confirm : String)
    (broadcastResult : Option String) : List Event × SendOutcome :=
  if pyLower confirm = "yes" then
    if broadcastAccepted broadcastResult then
      (builtEvs ++ [Event.broadcastCall], SendOutcome.success (broadcastResult.getD ""))
    else
      (builtEvs ++ [Event.broadcastCall], SendOutcome.broadcastFailed)
  else
    (builtEvs, SendOutcome.cancelled)

/-- `WalletApp.build_and_send`.  Steps, in source order: balance
refresh (network), `fee_estimate = 500`; MAX sentinel check, else
`int(Decimal(amount_str) * 100_000_000)`; the `send_sats > total_sats`
guard; `create_transaction` (fee pinned to 500 only on the MAX path);
confirmation prompt; broadcast and acceptance test. -/
def build_and_send (p : SendParams) : List Event × SendOutcome :=
  if amountIsMax p.amount_str then
    let send_sats := p.total_sats - 500
    if send_sats ≤ 0 then
      ([Event.balanceQuery], SendOutcome.balanceTooLow)
    else if send_sats > p.total_sats then
      ([Event.balanceQuery], SendOutcome.insufficientFunds)
    else
      confirmStage [Event.balanceQuery, Event.buildTx send_sats (some 500)]
        p.confirm p.broadcastResult
  else
    match parseDecimal p.amount_str with
    | none => ([Event.balanceQuery], SendOutcome.exceptionAbort)
    | some q =>
      let send_sats := truncInt (q * 100000000)
      if send_sats > p.total_sats then
        ([Event.balanceQuery], SendOutcome.insufficientFunds)
      else
        confirmStage [Event.balanceQuery, Event.buildTx send_sats none]
          p.confirm p.broadcastResult

/-- Inputs of one `send_op_return` call: the refreshed balance, the
length of `tx.hex()` for the built data transaction, the confirmation
line, and the value `broadcast` would return. -/
structure OpReturnParams where
  balance : ℤ
  rawHexLen : ℕ
  confirm : String
  broadcastResult : Option String

/-- `WalletApp.send_op_return`: balance refresh, the `bal < 1000`
fee-funds guard, data-transaction construction, confirmation prompt,
broadcast and acceptance test. -/
def send_op_return (p : OpReturnParams) : List Event × SendOutcome :=
  if p.balance < 1000 then
    ([Event.balanceQuery], SendOutcome.insufficientFunds)
  else
    confirmStage [Event.balanceQuery, Event.buildDataTx] p.confirm p.broadcastResult

/-- The fee line `send_op_return` prints:
`len(raw_hex)//2 * 0.5` satoshis, where `s = len(raw_hex)//2` is the
transaction byte size.  The multiplication is exact float arithmetic on
a half, not a rounded integer. -/
def op_return_fee_shown (s : ℕ) : ℚ :=
  (s : ℚ) * (1 / 2)

/-! ### Coin selection, modelled from the spec

The script delegates UTXO selection, change computation and fee
accounting to the external `bsvlib` library (`create_transaction`), so
that code is not part of the repository.  The definitions below are
modelled from the spec (sections 3, 4.2 and 4.3), which defines the
selector the wallet core would need. -/

/-- Modelled from the spec: `UnspentOutput` of section 3 (the 32-byte
txid hash is abstracted to a number; `bsvlib`'s concrete UTXO type is
not in the repository). -/
structure UnspentOutput where
  txid : ℕ
  vout : ℕ
  value : ℕ
  scriptPubKey : List ℕ
  deriving DecidableEq

/-- Modelled from the spec: `FeePolicy` of section 3, a rational fee
rate per byte. -/
structure FeePolicy where
  ratePerByte : ℚ

/-- Modelled from the spec: section 4.2,
`estimateFee(transactionByteSize) = ceil(size * ratePerByte)` satoshis. -/
def estimateFee (fp : FeePolicy) (size : ℕ) : ℤ :=
  ⌈(size : ℚ) * fp.ratePerByte⌉

/-- Total satoshi value of a list of unspent outputs. -/
def sumValues (l : List UnspentOutput) : ℤ :=
  (l.map fun u => (u.value : ℤ)).sum

/-- Modelled from the spec: the requested amount of a `SpendRequest`,
an integer satoshi value or the `MAX` sentinel. -/
inductive ReqAmount where
  | maxAmount
  | value (v : ℤ)

/-- Modelled from the spec: result of `select` — chosen inputs plus
change value, or `InsufficientFunds`. -/
inductive SelectResult where
  | ok (chosenInputs : List UnspentOutput) (changeValue : ℤ)
  | insufficientFunds
  deriving DecidableEq

/-- Modelled from the spec: the accumulation threshold of section 4.3
step 2 — the inputs chosen so far cover `amount` plus the fee
re-estimated for the current size (a transaction with the chosen
inputs and two outputs, payment and change). -/
def accumulatedEnough (fp : FeePolicy) (sizeOf : ℕ → ℕ → ℕ) (amount : ℤ)
    (chosen : List UnspentOutput) : Bool :=
  decide (amount + estimateFee fp (sizeOf chosen.length 2) ≤ sumValues chosen)

/-- Modelled from the spec: section 4.3 step 2 — accumulate candidates
in declared order, re-estimating the fee as each input is added, until
the threshold is met; `none` when the candidate list is exhausted
first. -/
def selectGo (fp : FeePolicy) (sizeOf : ℕ → ℕ → ℕ) (amount : ℤ) :
    List UnspentOutput → List UnspentOutput → Option (List UnspentOutput)
  | [], chosen =>
    if accumulatedEnough fp sizeOf amount chosen then some chosen else none
  | u :: rest, chosen =>
    if accumulatedEnough fp sizeOf amount chosen then some chosen
    else selectGo fp sizeOf amount rest (chosen ++ [u])

/-- Modelled from the spec: `select(utxoSet, request, feePolicy)` of
section 4.3.  `sizeOf nInputs nOutputs` is the draft transaction byte
size, `dust` the declared dust threshold; change below dust is folded
into the fee (no change output). -/
def select (fp : FeePolicy) (sizeOf : ℕ → ℕ → ℕ) (dust : ℤ)
    (utxos : List UnspentOutput) : ReqAmount → SelectResult
  | .maxAmount =>
    if sumValues utxos - estimateFee fp (sizeOf utxos.length 1) ≤ 0 then
      .insufficientFunds
    else
      .ok utxos 0
  | .value a =>
    match selectGo fp sizeOf a utxos [] with
    | none => .insufficientFunds
    | some chosen =>
      if sumValues chosen - a - estimateFee fp (sizeOf chosen.length 2) < dust then
        .ok chosen 0
      else
        .ok chosen (sumValues chosen - a - estimateFee fp (sizeOf chosen.length 2))

/-! ## Helper lemmas -/

theorem taalLoop_all_noResponse (l : List TaalResponse)
    (h : ∀ x ∈ l, x = TaalResponse.noResponse) : taalLoop l = none := by
  induction l with
  | nil => rfl
  | cons r rest ih =>
    have hr := h r (List.mem_cons_self r rest)
    subst hr
    simp only [taalLoop, taalExtract]
    exact ih fun x hx => h x (List.mem_cons_of_mem _ hx)

theorem taalLoop_first_success (pre rest : List TaalResponse) (r : TaalResponse)
    (v : Option String) (hpre : ∀ x ∈ pre, x = TaalResponse.noResponse)
    (hr : taalExtract r = some v) :
    taalLoop (pre ++ r :: rest) = some v := by
  induction pre with
  | nil => simp only [List.nil_append, taalLoop, hr]
  | cons p ps ih =>
    have hp := hpre p (List.mem_cons_self p ps)
    subst hp
    simp only [List.cons_append, taalLoop, taalExtract]
    exact ih fun x hx => hpre x (List.mem_cons_of_mem _ hx)

theorem taalAttempts_first_success (pre rest : List TaalResponse) (r : TaalResponse)
    (v : Option String) (hpre : ∀ x ∈ pre, x = TaalResponse.noResponse)
    (hr : taalExtract r = some v) :
    taalAttempts (pre ++ r :: rest) = pre.length + 1 := by
  induction pre with
  | nil => simp only [List.nil_append, taalAttempts, hr, List.length_nil, Nat.zero_add]
  | cons p ps ih =>
    have hp := hpre p (List.mem_cons_self p ps)
    subst hp
    simp only [List.cons_append, taalAttempts, taalExtract, List.length_cons, List.append_eq]
    rw [ih fun x hx => hpre x (List.mem_cons_of_mem _ hx)]
    omega

theorem taalAttempts_le (l : List TaalResponse) : taalAttempts l ≤ l.length := by
  induction l with
  | nil => exact Nat.le_refl 0
  | cons r rest ih =>
    simp only [taalAttempts, List.length_cons]
    cases h : taalExtract r with
    | some v => simp only [h]; omega
    | none => simp only [h]; omega

theorem confirmStage_mem (evs : List Event) (c : String) (b : Option String)
    (e : Event) (h : e ∈ evs) : e ∈ (confirmStage evs c b).1 := by
  unfold confirmStage
  split
  · split
    · exact List.mem_append_left _ h
    · exact List.mem_append_left _ h
  · exact h

theorem confirmStage_not_yes (evs : List Event) (c : String) (b : Option String)
    (h : pyLower c ≠ "yes") : confirmStage evs c b = (evs, SendOutcome.cancelled) := by
  unfold confirmStage
  rw [if_neg h]

theorem confirmStage_broadcast_mem (evs : List Event) (c : String) (b : Option String)
    (h : Event.broadcastCall ∈ (confirmStage evs c b).1)
    (hevs : Event.broadcastCall ∉ evs) : pyLower c = "yes" := by
  by_contra hc
  rw [confirmStage_not_yes evs c b hc] at h
  exact hevs h

/-! ## Claim theorems -/

/-- Claim C3: providers are attempted in the fixed priority order (the
TAAL keys in `TAAL_KEYS` order, then WhatsOnChain); the first attempt
that yields a 200 response ends the call with that provider's
extracted transaction id, no later key and not WhatsOnChain is
contacted; WhatsOnChain's id is returned only after every TAAL key
fell through; and no attempt is ever repeated within one call (the
number of TAAL POSTs is bounded by the number of keys). -/
theorem c3_broadcast_priority_early_exit :
    (∀ (pre rest : List TaalResponse) (r : TaalResponse) (v : Option String)
        (w : WocResponse),
      (∀ x ∈ pre, x = TaalResponse.noResponse) → taalExtract r = some v →
        broadcast ⟨pre ++ r :: rest, w⟩ = v ∧
        taalAttempts (pre ++ r :: rest) = pre.length + 1 ∧
        wocAttempted ⟨pre ++ r :: rest, w⟩ = false) ∧
    (∀ (taal : List TaalResponse) (text : List Char),
      (∀ x ∈ taal, x = TaalResponse.noResponse) →
        broadcast ⟨taal, WocResponse.ok text⟩ = some (String.mk (wocNormalize text)) ∧
        taalAttempts taal = taal.length) ∧
    (∀ l : List TaalResponse, taalAttempts l ≤ l.length) := by
  refine ⟨fun pre rest r v w hpre hr => ?_, fun taal text h => ?_, taalAttempts_le⟩
  · have hl := taalLoop_first_success pre rest r v hpre hr
    refine ⟨?_, taalAttempts_first_success pre rest r v hpre hr, ?_⟩
    · simp only [broadcast, hl]
    · simp only [wocAttempted, hl, Option.isNone_some]
  · have hl := taalLoop_all_noResponse taal h
    constructor
    · simp only [broadcast, hl]
    · induction taal with
      | nil => rfl
      | cons x xs ih =>
        have hx := h x (List.mem_cons_self x xs)
        subst hx
        simp only [taalAttempts, taalExtract, List.length_cons]
        rw [ih (fun y hy => h y (List.mem_cons_of_mem _ hy))
            (taalLoop_all_noResponse xs fun y hy => h y (List.mem_cons_of_mem _ hy))]
        omega

/-- Witness for C3 at a concrete attempt list: first key raises,
second key answers 200 with txid `"abc"`; the call returns `"abc"`,
makes exactly two TAAL attempts and never contacts WhatsOnChain. -/
theorem c3_broadcast_priority_early_exit_witness :
    broadcast ⟨[TaalResponse.noResponse, TaalResponse.jsonDict (some "abc") none,
        TaalResponse.notJson "zzz"], WocResponse.failure⟩ = some "abc" ∧
    taalAttempts [TaalResponse.noResponse, TaalResponse.jsonDict (some "abc") none,
        TaalResponse.notJson "zzz"] = 2 ∧
    wocAttempted ⟨[TaalResponse.noResponse, TaalResponse.jsonDict (some "abc") none,
        TaalResponse.notJson "zzz"], WocResponse.failure⟩ = false := by
  have h := c3_broadcast_priority_early_exit.1 [TaalResponse.noResponse]
    [TaalResponse.notJson "zzz"] (TaalResponse.jsonDict (some "abc") none)
    (some "abc") WocResponse.failure (by decide) rfl
  exact ⟨h.1, h.2.1, h.2.2⟩

/-- Claim C4: when every provider attempt fails, `broadcast` returns
`None` — the single aggregated failure the callers then report as
`"Broadcast failed."` — and that value never passes the acceptance
test, so there is no partial or ambiguous success. -/
theorem c4_broadcast_all_failed (taal : List TaalResponse)
    (h : ∀ x ∈ taal, x = TaalResponse.noResponse) :
    broadcast ⟨taal, WocResponse.failure⟩ = none ∧
    broadcastAccepted (broadcast ⟨taal, WocResponse.failure⟩) = false := by
  have hl := taalLoop_all_noResponse taal h
  refine ⟨?_, ?_⟩
  · simp only [broadcast, hl]
  · simp only [broadcast, hl, broadcastAccepted]

/-- Witness for C4: both TAAL keys fail and WhatsOnChain fails. -/
theorem c4_broadcast_all_failed_witness :
    broadcast ⟨[TaalResponse.noResponse, TaalResponse.noResponse],
      WocResponse.failure⟩ = none :=
  (c4_broadcast_all_failed [TaalResponse.noResponse, TaalResponse.noResponse]
    (by decide)).1

/-- Claim C5: the extracted transaction id is a plain optional string;
an absent id or one of at most 20 characters fails the callers'
`txid and len(txid) > 20` acceptance test, a longer one passes it, and
a rejected id turns a confirmed send into the `"Broadcast failed."`
outcome rather than a success. -/
theorem c5_short_txid_is_failure (t : String) (bres : Option String)
    (evs : List Event) (c : String) :
    (t.length ≤ 20 → broadcastAccepted (some t) = false) ∧
    broadcastAccepted none = false ∧
    (20 < t.length → broadcastAccepted (some t) = true) ∧
    (pyLower c = "yes" → broadcastAccepted bres = false →
      confirmStage evs c bres = (evs ++ [Event.broadcastCall], SendOutcome.broadcastFailed)) := by
  refine ⟨fun h => ?_, rfl, fun h => ?_, fun hc hb => ?_⟩
  · simp only [broadcastAccepted, decide_eq_false_iff_not]
    omega
  · simp only [broadcastAccepted, decide_eq_true_eq]
    exact h
  · unfold confirmStage
    rw [if_pos hc, if_neg (by simp [hb])]

/-- Witness for C5: a 5-character response body is rejected and the
confirmed send reports a failed broadcast. -/
theorem c5_short_txid_is_failure_witness :
    broadcastAccepted (some "error") = false ∧
    confirmStage [Event.balanceQuery] "YES" (some "error") =
      ([Event.balanceQuery] ++ [Event.broadcastCall], SendOutcome.broadcastFailed) := by
  have h := c5_short_txid_is_failure "error" (some "error") [Event.balanceQuery] "YES"
  exact ⟨h.1 (by decide), h.2.2.2 (by decide) (h.1 (by decide))⟩

/-- Claim C6 (code behaviour at the failing input): when the
exchange-rate query fails (`get_json` returns `None`) or the response
carries no `rate` field, `get_price` silently returns the string
`"0.00"`, which `show_status` then uses as a zero rate for the USD
display — the missing rate is *not* reported as unavailable. -/
theorem c6_missing_rate_defaults_to_zero :
    get_price none = "0.00" ∧ get_price (some none) = "0.00" :=
  ⟨rfl, rfl⟩

/-- Claim C9: a 200 JSON-dict response yields its `txid` field,
falling back to its `result` field when `txid` is absent; a bare
quoted WhatsOnChain body yields the string with the quotes removed and
surrounding whitespace stripped. -/
theorem c9_response_normalization :
    (∀ (t : String) (r? : Option String), taalExtractDict (some t) r? = some t) ∧
    (∀ r? : Option String, taalExtractDict none r? = r?) ∧
    (∀ s : List Char, (∀ c ∈ s, c ≠ '"') →
      wocNormalize ('"' :: (s ++ ['"'])) = pyStrip s) := by
  refine ⟨fun t r? => rfl, fun r? => rfl, fun s hs => ?_⟩
  unfold wocNormalize
  congr 1
  have hfilter : s.filter (fun c => c ≠ '"') = s :=
    List.filter_eq_self.mpr fun a ha => by simpa using hs a ha
  simp only [List.filter_cons, List.filter_append, hfilter]
  simp

/-- Witness for C9 on the body `" ab"` wrapped in quotes. -/
theorem c9_response_normalization_witness :
    wocNormalize ('"' :: ([' ', 'a', 'b'] ++ ['"'])) = pyStrip [' ', 'a', 'b'] :=
  c9_response_normalization.2.2 [' ', 'a', 'b'] (by decide)

/-! ### Selector lemmas and the selection claim -/

theorem estimateFee_zero_rate (n : ℕ) : estimateFee ⟨0⟩ n = 0 := by
  simp [estimateFee]

theorem selectGo_sound (fp : FeePolicy) (sizeOf : ℕ → ℕ → ℕ) (amount : ℤ) :
    ∀ (remaining chosen out : List UnspentOutput),
      selectGo fp sizeOf amount remaining chosen = some out →
      accumulatedEnough fp sizeOf amount out = true := by
  intro remaining
  induction remaining with
  | nil =>
    intro chosen out h
    simp only [selectGo] at h
    by_cases hb : accumulatedEnough fp sizeOf amount chosen = true
    · rw [if_pos hb] at h
      cases h
      exact hb
    · rw [if_neg hb] at h
      cases h
  | cons u rest ih =>
    intro chosen out h
    simp only [selectGo] at h
    by_cases hb : accumulatedEnough fp sizeOf amount chosen = true
    · rw [if_pos hb] at h
      cases h
      exact hb
    · rw [if_neg hb] at h
      exact ih _ _ h

/-- Claim C1: for every UTXO set and non-MAX amount, whenever `select`
commits to a set of inputs, their total value covers the requested
amount plus the fee estimated for the size actually selected; a result
other than this is the `InsufficientFunds` failure, produced before
any transaction is built.  (The selector is modelled from the spec:
the script delegates it to the external `bsvlib` library.) -/
theorem c1_select_covers_amount_plus_fee (fp : FeePolicy) (sizeOf : ℕ → ℕ → ℕ)
    (dust : ℤ) (utxos : List UnspentOutput) (amount : ℤ)
    (chosen : List UnspentOutput) (change : ℤ)
    (h : select fp sizeOf dust utxos (ReqAmount.value amount) = SelectResult.ok chosen change) :
    amount + estimateFee fp (sizeOf chosen.length 2) ≤ sumValues chosen := by
  cases hg : selectGo fp sizeOf amount utxos [] with
  | none =>
    simp only [select, hg] at h
    cases h
  | some c =>
    simp only [select, hg] at h
    have hen := selectGo_sound fp sizeOf amount utxos [] c hg
    have hc : c = chosen := by
      by_cases hd : sumValues c - amount - estimateFee fp (sizeOf c.length 2) < dust
      · rw [if_pos hd] at h
        cases h
        rfl
      · rw [if_neg hd] at h
        cases h
        rfl
    subst hc
    simpa [accumulatedEnough] using hen

/-- Witness for C1 with one 2000-satoshi UTXO, amount 100 and a zero
fee rate: `select` commits to the single input and its value covers
amount plus fee. -/
theorem c1_select_covers_amount_plus_fee_witness :
    (100 : ℤ) + estimateFee ⟨0⟩ 0 ≤ sumValues [⟨0, 0, 2000, []⟩] :=
  c1_select_covers_amount_plus_fee ⟨0⟩ (fun _ _ => 0) 0 [⟨0, 0, 2000, []⟩] 100
    [⟨0, 0, 2000, []⟩] 1900
    (by simp [select, selectGo, accumulatedEnough, sumValues, estimateFee_zero_rate])

/-! ### Shape lemmas for the send operations -/

theorem build_and_send_shape (p : SendParams) :
    ((build_and_send p).1 = [Event.balanceQuery] ∧
      ((build_and_send p).2 = SendOutcome.balanceTooLow ∨
       (build_and_send p).2 = SendOutcome.insufficientFunds ∨
       (build_and_send p).2 = SendOutcome.exceptionAbort)) ∨
    (∃ send fee, build_and_send p =
      confirmStage [Event.balanceQuery, Event.buildTx send fee] p.confirm p.broadcastResult) := by
  unfold build_and_send
  by_cases hmax : amountIsMax p.amount_str = true
  · rw [if_pos hmax]
    by_cases h1 : p.total_sats - 500 ≤ 0
    · rw [if_pos h1]
      exact Or.inl ⟨rfl, Or.inl rfl⟩
    · rw [if_neg h1]
      by_cases h2 : p.total_sats - 500 > p.total_sats
      · rw [if_pos h2]
        exact Or.inl ⟨rfl, Or.inr (Or.inl rfl)⟩
      · rw [if_neg h2]
        exact Or.inr ⟨_, _, rfl⟩
  · rw [if_neg hmax]
    cases hp : parseDecimal p.amount_str with
    | none =>
      simp [hp]
    | some q =>
      simp only [hp]
      by_cases h2 : truncInt (q * 100000000) > p.total_sats
      · rw [if_pos h2]
        exact Or.inl ⟨rfl, by simp⟩
      · rw [if_neg h2]
        exact Or.inr ⟨_, _, rfl⟩

theorem send_op_return_shape (q : OpReturnParams) :
    send_op_return q = ([Event.balanceQuery], SendOutcome.insufficientFunds) ∨
    send_op_return q =
      confirmStage [Event.balanceQuery, Event.buildDataTx] q.confirm q.broadcastResult := by
  unfold send_op_return
  by_cases h : q.balance < 1000
  · rw [if_pos h]
    exact Or.inl rfl
  · rw [if_neg h]
    exact Or.inr rfl

/-- Claim C2: on a MAX request the amount handed to the transaction
builder equals the refreshed total balance minus the 500-satoshi fee
estimate, with the fee pinned to exactly 500, so inputs
(`total_sats`) = send value + fee with nothing left for change; and
when that amount is zero or negative the operation stops with the
`"Balance too low for fee."` report, building and broadcasting
nothing. -/
theorem c2_max_send_consumes_balance (p : SendParams)
    (hmax : amountIsMax p.amount_str = true) :
    (p.total_sats ≤ 500 →
      build_and_send p = ([Event.balanceQuery], SendOutcome.balanceTooLow)) ∧
    (500 < p.total_sats →
      Event.buildTx (p.total_sats - 500) (some 500) ∈ (build_and_send p).1 ∧
      (p.total_sats - 500) + 500 = p.total_sats) := by
  constructor
  · intro hle
    have h1 : p.total_sats - 500 ≤ 0 := by omega
    unfold build_and_send
    rw [if_pos hmax, if_pos h1]
  · intro hlt
    have h1 : ¬ p.total_sats - 500 ≤ 0 := by omega
    have h2 : ¬ p.total_sats - 500 > p.total_sats := by omega
    unfold build_and_send
    rw [if_pos hmax, if_neg h1, if_neg h2]
    exact ⟨confirmStage_mem _ _ _ _ (by simp), by omega⟩

/-- Witness for C2 with a 1000-satoshi balance and amount `"MAX"`:
the builder receives send value 500 with fee 500, and
500 + 500 = 1000. -/
theorem c2_max_send_consumes_balance_witness :
    Event.buildTx 500 (some 500) ∈ (build_and_send ⟨1000, "MAX", "no", none⟩).1 ∧
    (500 : ℤ) + 500 = 1000 := by
  have h := (c2_max_send_consumes_balance ⟨1000, "MAX", "no", none⟩ (by decide)).2
    (by decide)
  exact ⟨h.1, h.2⟩

/-- Claim C7, counterexample: for a 7-byte data transaction the value
printed is `7 * 0.5 = 3.5` satoshis, which is not the integer
`ceil(7 * 0.5) = 4` the claim asserts. -/
theorem c7_fee_shown_counterexample :
    op_return_fee_shown 7 = 7 / 2 ∧ estimateFee ⟨1 / 2⟩ 7 = 4 ∧
    op_return_fee_shown 7 ≠ ((estimateFee ⟨1 / 2⟩ 7 : ℤ) : ℚ) := by
  have hceil : estimateFee ⟨1 / 2⟩ 7 = 4 := by
    unfold estimateFee
    rw [Int.ceil_eq_iff]
    push_cast
    norm_num
  refine ⟨by norm_num [op_return_fee_shown], hceil, ?_⟩
  rw [hceil]
  norm_num [op_return_fee_shown]

/-- Claim C7, amended: the fee shown for a data transaction of `s`
bytes is exactly `s * 0.5` satoshis with no rounding; it coincides
with the spec's `ceil(s * ratePerByte)` at rate one-half only when `s`
is even. -/
theorem c7_fee_shown_is_exact_half (s : ℕ) :
    op_return_fee_shown s = (s : ℚ) / 2 ∧
    (s % 2 = 0 → ((estimateFee ⟨1 / 2⟩ s : ℤ) : ℚ) = op_return_fee_shown s) := by
  constructor
  · unfold op_return_fee_shown
    ring
  · intro h
    obtain ⟨k, hk⟩ : ∃ k, s = 2 * k := ⟨s / 2, by omega⟩
    subst hk
    unfold op_return_fee_shown estimateFee
    have hhalf : ((2 * k : ℕ) : ℚ) * (1 / 2) = (k : ℚ) := by
      push_cast
      ring
    rw [hhalf, Int.ceil_natCast]
    push_cast
    ring

/-- Witness for C7 (amended) at the even size 4: shown fee 2 equals
the ceiling estimate. -/
theorem c7_fee_shown_is_exact_half_witness :
    op_return_fee_shown 4 = (4 : ℚ) / 2 ∧
    ((estimateFee ⟨1 / 2⟩ 4 : ℤ) : ℚ) = op_return_fee_shown 4 :=
  ⟨(c7_fee_shown_is_exact_half 4).1, (c7_fee_shown_is_exact_half 4).2 (by decide)⟩

/-- Claim C8, counterexample: with the malformed amount `"abc"` the
operation still performs the balance-refresh network call before the
amount is rejected — the trace contains a network event, so the
request is not rejected before any network call. -/
theorem c8_invalid_amount_counterexample :
    parseDecimal "abc" = none ∧
    (build_and_send ⟨1000, "abc", "yes", some "x"⟩).1.any isNetworkEvent = true ∧
    build_and_send ⟨1000, "abc", "yes", some "x"⟩ =
      ([Event.balanceQuery], SendOutcome.exceptionAbort) :=
  ⟨by decide, by decide, by decide⟩

/-- Claim C8, amended: a malformed (non-MAX, unparseable) amount makes
`build_and_send` abort through the exception path after the
balance-refresh network call but before any transaction is built and
before any broadcast network call. -/
theorem c8_invalid_amount_rejected_after_balance_query (p : SendParams)
    (hmax : amountIsMax p.amount_str = false)
    (hparse : parseDecimal p.amount_str = none) :
    build_and_send p = ([Event.balanceQuery], SendOutcome.exceptionAbort) := by
  simp [build_and_send, hmax, hparse]

/-- Witness for C8 (amended) at the malformed amount `"xyz"`. -/
theorem c8_invalid_amount_rejected_witness :
    build_and_send ⟨500, "xyz", "no", none⟩ =
      ([Event.balanceQuery], SendOutcome.exceptionAbort) :=
  c8_invalid_amount_rejected_after_balance_query ⟨500, "xyz", "no", none⟩
    (by decide) (by decide)

/-- Claim C10: in both send operations the broadcast POST happens only
when the confirmation input, lowercased, is exactly `"yes"`; for any
other input the trace contains no broadcast call and, once a
transaction was built, the outcome is `Cancelled`. -/
theorem c10_confirmation_gate (p : SendParams) (q : OpReturnParams) :
    (Event.broadcastCall ∈ (build_and_send p).1 → pyLower p.confirm = "yes") ∧
    (pyLower p.confirm ≠ "yes" →
      Event.broadcastCall ∉ (build_and_send p).1 ∧
      (txBuilt (build_and_send p).1 = true →
        (build_and_send p).2 = SendOutcome.cancelled)) ∧
    (Event.broadcastCall ∈ (send_op_return q).1 → pyLower q.confirm = "yes") ∧
    (pyLower q.confirm ≠ "yes" →
      Event.broadcastCall ∉ (send_op_return q).1 ∧
      (txBuilt (send_op_return q).1 = true →
        (send_op_return q).2 = SendOutcome.cancelled)) := by
  have hb := build_and_send_shape p
  have ho := send_op_return_shape q
  refine ⟨?_, ?_, ?_, ?_⟩
  · intro hmem
    rcases hb with ⟨h1, _⟩ | ⟨send, fee, heq⟩
    · rw [h1] at hmem
      simp at hmem
    · rw [heq] at hmem
      exact confirmStage_broadcast_mem _ _ _ hmem (by simp)
  · intro hne
    rcases hb with ⟨h1, _⟩ | ⟨send, fee, heq⟩
    · constructor
      · rw [h1]
        simp
      · intro hbuilt
        rw [h1] at hbuilt
        simp [txBuilt, isBuildEvent] at hbuilt
    · rw [heq, confirmStage_not_yes _ _ _ hne]
      exact ⟨by simp, fun _ => rfl⟩
  · intro hmem
    rcases ho with h1 | heq
    · rw [h1] at hmem
      simp at hmem
    · rw [heq] at hmem
      exact confirmStage_broadcast_mem _ _ _ hmem (by simp)
  · intro hne
    rcases ho with h1 | heq
    · constructor
      · rw [h1]
        simp
      · intro hbuilt
        rw [h1] at hbuilt
        simp [txBuilt, isBuildEvent] at hbuilt
    · rw [heq, confirmStage_not_yes _ _ _ hne]
      exact ⟨by simp, fun _ => rfl⟩

/-- Witness for C10: confirmation `"no"` (standard send) and `"NO"`
(data send) leave traces without a broadcast call and cancel. -/
theorem c10_confirmation_gate_witness :
    Event.broadcastCall ∉ (build_and_send ⟨1000, "MAX", "no", none⟩).1 ∧
    (build_and_send ⟨1000, "MAX", "no", none⟩).2 = SendOutcome.cancelled ∧
    Event.broadcastCall ∉ (send_op_return ⟨2000, 10, "NO", none⟩).1 ∧
    (send_op_return ⟨2000, 10, "NO", none⟩).2 = SendOutcome.cancelled := by
  have h := c10_confirmation_gate ⟨1000, "MAX", "no", none⟩ ⟨2000, 10, "NO", none⟩
  have h2 := h.2.1 (by decide)
  have h4 := h.2.2.2 (by decide)
  exact ⟨h2.1, h2.2 (by decide), h4.1, h4.2 (by decide)⟩

end BsvWallet
